import Mathlib

/-!
Verification of the level-2 preset pass-manager assembler
(`qiskit/transpiler/preset_passmanagers/level2.py`) against its
natural-language specification.

The single source file defines `level_2_pass_manager`, a decision
procedure that consumes a `PassManagerConfig` and produces a
`StagedPassManager` with seven optional stage slots, resolving named
stages through a plugin registry and three default-stage factories.
The collaborators (`PassManagerStagePluginManager`, `common.*`
factories, `StagedPassManager`, `CouplingMap`, `Target`) are external
to the provided source; they are modelled from the specification as
opaque values that record exactly the parameters they were built from,
which is all the assembler's contract observes about them.
-/

namespace Level2

/-- Modelled from the spec: a connectivity graph over physical positions
("possibly directed/asymmetric").  The assembler observes only its
presence and its `is_symmetric` predicate, so the model records an
identity token and that single observable. -/
structure CouplingMap where
  token : Nat
  is_symmetric : Bool
deriving DecidableEq, Repr

/-- Modelled from the spec: the target descriptor, "authoritative over
native gate set and connectivity", exposing directionality information.
The assembler observes only `get_non_global_operation_names`, so the
model stores the two possible answers (strict and non-strict). -/
structure Target where
  token : Nat
  nonGlobalStrict : List String
  nonGlobalNonStrict : List String
deriving DecidableEq, Repr

/-- `Target.get_non_global_operation_names(strict_direction=...)`:
the names of operations unavailable in at least one direction on at
least one qubit pair (strict) or not globally available (non-strict). -/
def Target.get_non_global_operation_names (t : Target) (strict_direction : Bool) :
    List String :=
  if strict_direction then t.nonGlobalStrict else t.nonGlobalNonStrict

/-- Modelled from the spec: a user-supplied qubit placement map, opaque
to the assembler (only its presence is observed). -/
structure Layout where
  token : Nat
deriving DecidableEq, Repr

/-- Modelled from the spec: the "numeric approximation tolerance",
opaque to the assembler (it is only passed through to the
wide-operation-reduction factory). -/
structure ApproximationDegree where
  token : Nat
deriving DecidableEq, Repr

/-- Modelled from the spec: the "opaque synthesis-options bag", passed
through unchanged. -/
structure UnitarySynthesisPluginConfig where
  token : Nat
deriving DecidableEq, Repr

/-- Modelled from the spec: the "opaque high-level-synthesis options
bag", passed through unchanged. -/
structure HLSConfig where
  token : Nat
deriving DecidableEq, Repr

/-- The configuration record read by `level_2_pass_manager`: exactly the
fields the source extracts from `pass_manager_config` (level2.py lines
52-65). -/
structure PassManagerConfig where
  basis_gates : Option (List String)
  coupling_map : Option CouplingMap
  initial_layout : Option Layout
  init_method : Option String
  layout_method : Option String
  routing_method : Option String
  translation_method : Option String
  optimization_method : Option String
  scheduling_method : Option String
  approximation_degree : Option ApproximationDegree
  unitary_synthesis_method : String
  unitary_synthesis_plugin_config : Option UnitarySynthesisPluginConfig
  target : Option Target
  hls_config : Option HLSConfig
deriving DecidableEq, Repr

/-- Python's `x or default` applied to an optional string field:
`None` and the empty string (both falsy in Python) fall back to the
default; any other string is kept.  This renders lines such as
`layout_method = pass_manager_config.layout_method or "default"`. -/
def pyOrDefault : Option String → String → String
  | none, d => d
  | some s, d => if s = "" then d else s

/-- One opaque building block of a pass-manager pipeline, recording
which collaborator produced it and with which parameters.  Stage
internals are out of scope; equality of parameters is the observable
the spec reasons with. -/
inductive Segment where
  /-- A stage resolved from the plugin registry by
  `PassManagerStagePluginManager.get_passmanager_stage`. -/
  | plugin (stage_kind : String) (method : String) (cfg : PassManagerConfig)
      (optimization_level : Nat)
  /-- The stage built by `common.generate_unroll_3q`. -/
  | unroll3q (target : Option Target) (basis_gates : Option (List String))
      (approximation_degree : Option ApproximationDegree)
      (unitary_synthesis_method : String)
      (unitary_synthesis_plugin_config : Option UnitarySynthesisPluginConfig)
      (hls_config : Option HLSConfig)
  /-- The stage built by `common.generate_pre_op_passmanager`. -/
  | preOpt (target : Option Target) (coupling_map : Option CouplingMap)
      (remove_reset_in_zero : Bool)
  /-- The stage built by `common.generate_control_flow_options_check`. -/
  | cfCheck (layout_method routing_method translation_method optimization_method
      scheduling_method : String) (basis_gates : Option (List String))
      (target : Option Target)
deriving DecidableEq, Repr

/-- A stage-pipeline value: an ordered sequence of opaque building
blocks; `pm1 += pm2` in the source is concatenation. -/
abbrev PassManager := List Segment

/-- Errors that can abort assembly.  `resolutionError` is raised by the
registry for an unknown (stage-kind, method-name) pair. -/
inductive PresetError where
  | resolutionError (stage_kind : String) (method : String)
deriving DecidableEq, Repr

/-- The plugin registry: the set of registered (stage-kind, method-name)
pairs, "populated once at process start, read-only during assembly". -/
abbrev Registry := List (String × String)

/-- Modelled from the spec:
`PassManagerStagePluginManager.get_passmanager_stage` (the
`StageRegistry.lookup` contract, spec 4.2), absent from src/.  It
returns the registered stage for the pair, as an opaque pipeline
recording the lookup parameters, and "fails with `ResolutionError` if
no entry is registered for `(stageKind, methodName)`"; it is pure
(side-effect-free). -/
def get_passmanager_stage (reg : Registry) (stage_kind : String) (method : String)
    (cfg : PassManagerConfig) (optimization_level : Nat) :
    Except PresetError PassManager :=
  if (stage_kind, method) ∈ reg then
    Except.ok [Segment.plugin stage_kind method cfg optimization_level]
  else
    Except.error (PresetError.resolutionError stage_kind method)

/-- Modelled from the spec: `common.generate_unroll_3q` (the
`reduceWideOps` factory, spec 4.3), absent from src/.  It builds the
mandatory wide-operation-reduction stage, opaque except for the
parameters it was built from. -/
def generate_unroll_3q (target : Option Target) (basis_gates : Option (List String))
    (approximation_degree : Option ApproximationDegree)
    (unitary_synthesis_method : String)
    (unitary_synthesis_plugin_config : Option UnitarySynthesisPluginConfig)
    (hls_config : Option HLSConfig) : PassManager :=
  [Segment.unroll3q target basis_gates approximation_degree unitary_synthesis_method
    unitary_synthesis_plugin_config hls_config]

/-- Modelled from the spec: `common.generate_pre_op_passmanager` (the
`preOptimizationDefaults` factory, spec 4.3), absent from src/.  It is
called positionally as `(target, coupling_map, remove_reset_in_zero)`;
direction-fixing passes are included exactly when a target or a
connectivity graph is bound (the spec's asymmetric branch binds both,
its other branch binds neither), and `remove_reset_in_zero` enables
removal of reset operations acting on a known-zero state. -/
def generate_pre_op_passmanager (target : Option Target)
    (coupling_map : Option CouplingMap) (remove_reset_in_zero : Bool) : PassManager :=
  [Segment.preOpt target coupling_map remove_reset_in_zero]

/-- Whether a pre-optimization pipeline contains direction-fixing
passes: per the factory contract, exactly when it was bound to a target
or a connectivity graph. -/
def fixesDirection (pm : PassManager) : Bool :=
  pm.any fun s =>
    match s with
    | Segment.preOpt t c _ => t.isSome || c.isSome
    | _ => false

/-- Whether a pipeline contains the wide-operation-reduction stage. -/
def hasUnroll3q (pm : PassManager) : Bool :=
  pm.any fun s =>
    match s with
    | Segment.unroll3q _ _ _ _ _ _ => true
    | _ => false

/-- Modelled from the spec: `common.generate_control_flow_options_check`
(the `controlFlowValidation` factory, spec 4.3), absent from src/.  A
pure validation stage parameterized by the five resolved method names,
the native gate set and the target; it performs no rewriting. -/
def generate_control_flow_options_check (layout_method routing_method
    translation_method optimization_method scheduling_method : String)
    (basis_gates : Option (List String)) (target : Option Target) : PassManager :=
  [Segment.cfCheck layout_method routing_method translation_method
    optimization_method scheduling_method basis_gates target]

/-- Modelled from the spec: the `StagedPassManager` record (the
`StagedPipeline` of spec 3), absent from src/: "an ordered record of
seven named slots ... each holding either a stage-pipeline value or an
explicit absence marker". -/
structure StagedPassManager where
  init : Option PassManager
  layout : Option PassManager
  routing : Option PassManager
  translation : Option PassManager
  pre_optimization : Option PassManager
  optimization : Option PassManager
  scheduling : Option PassManager
deriving DecidableEq, Repr

instance : DecidableEq (Except PresetError StagedPassManager) := fun a b =>
  match a, b with
  | Except.ok x, Except.ok y => decidable_of_iff (x = y) (by simp)
  | Except.error x, Except.error y => decidable_of_iff (x = y) (by simp)
  | Except.ok _, Except.error _ => isFalse (by simp)
  | Except.error _, Except.ok _ => isFalse (by simp)

instance : DecidableEq (Except PresetError PassManager) := fun a b =>
  match a, b with
  | Except.ok x, Except.ok y => decidable_of_iff (x = y) (by simp)
  | Except.error x, Except.error y => decidable_of_iff (x = y) (by simp)
  | Except.ok _, Except.error _ => isFalse (by simp)
  | Except.error _, Except.ok _ => isFalse (by simp)

/-- Line 73 of the source: `if coupling_map or initial_layout:` — a
`CouplingMap` or `Layout` instance is truthy, so the branch tests
presence of either. -/
def mappingNeeded (cfg : PassManagerConfig) : Bool :=
  cfg.coupling_map.isSome || cfg.initial_layout.isSome

/-- Lines 93-95 of the source: the condition deciding the
pre-optimization defaults, `(coupling_map and not
coupling_map.is_symmetric) or (target is not None and
target.get_non_global_operation_names(strict_direction=True))` (a
non-empty list is truthy). -/
def asymmetricCond (cfg : PassManagerConfig) : Bool :=
  (cfg.coupling_map.any fun cm => !cm.is_symmetric) ||
    (cfg.target.any fun t => !(t.get_non_global_operation_names true).isEmpty)

/-- The shallow embedding of `level_2_pass_manager` (level2.py lines
27-132), translated statement by statement: local bindings with Python
`or` defaulting, the unconditional routing resolution, the mapping
branch, the pre-optimization decision, the remaining resolutions, the
`init` construction, and the final `StagedPassManager`. -/
def level_2_pass_manager (reg : Registry) (pass_manager_config : PassManagerConfig) :
    Except PresetError StagedPassManager :=
  let basis_gates := pass_manager_config.basis_gates
  let coupling_map := pass_manager_config.coupling_map
  let initial_layout := pass_manager_config.initial_layout
  let init_method := pass_manager_config.init_method
  let layout_method := pyOrDefault pass_manager_config.layout_method "default"
  let routing_method := pyOrDefault pass_manager_config.routing_method "sabre"
  let translation_method := pyOrDefault pass_manager_config.translation_method "translator"
  let optimization_method := pyOrDefault pass_manager_config.optimization_method "default"
  let scheduling_method := pyOrDefault pass_manager_config.scheduling_method "default"
  let approximation_degree := pass_manager_config.approximation_degree
  let unitary_synthesis_method := pass_manager_config.unitary_synthesis_method
  let unitary_synthesis_plugin_config := pass_manager_config.unitary_synthesis_plugin_config
  let target := pass_manager_config.target
  let hls_config := pass_manager_config.hls_config
  match get_passmanager_stage reg "routing" routing_method pass_manager_config 2 with
  | Except.error e => Except.error e
  | Except.ok routing_pm =>
    let mapped : Except PresetError
        (Option PassManager × Option PassManager × Option PassManager) :=
      if coupling_map.isSome || initial_layout.isSome then
        match get_passmanager_stage reg "layout" layout_method pass_manager_config 2 with
        | Except.error e => Except.error e
        | Except.ok layout =>
          Except.ok
            (some (generate_unroll_3q target basis_gates approximation_degree
                unitary_synthesis_method unitary_synthesis_plugin_config hls_config),
              some layout, some routing_pm)
      else
        Except.ok (none, none, none)
    match mapped with
    | Except.error e => Except.error e
    | Except.ok (unroll_3q, layout, routing) =>
      match get_passmanager_stage reg "translation" translation_method
          pass_manager_config 2 with
      | Except.error e => Except.error e
      | Except.ok translation =>
        let pre_optimization :=
          if (coupling_map.any fun cm => !cm.is_symmetric) ||
              (target.any fun t =>
                !(t.get_non_global_operation_names true).isEmpty) then
            generate_pre_op_passmanager target coupling_map true
          else
            generate_pre_op_passmanager none none true
        match get_passmanager_stage reg "optimization" optimization_method
            pass_manager_config 2 with
        | Except.error e => Except.error e
        | Except.ok optimization =>
          match get_passmanager_stage reg "scheduling" scheduling_method
              pass_manager_config 2 with
          | Except.error e => Except.error e
          | Except.ok sched =>
            let init := generate_control_flow_options_check layout_method
              routing_method translation_method optimization_method
              scheduling_method basis_gates target
            let initResolved : Except PresetError PassManager :=
              match init_method with
              | some im =>
                match get_passmanager_stage reg "init" im pass_manager_config 2 with
                | Except.error e => Except.error e
                | Except.ok s => Except.ok (init ++ s)
              | none =>
                match unroll_3q with
                | some u => Except.ok (init ++ u)
                | none => Except.ok init
            match initResolved with
            | Except.error e => Except.error e
            | Except.ok init =>
              Except.ok
                { init := some init
                  layout := layout
                  routing := routing
                  translation := some translation
                  pre_optimization := some pre_optimization
                  optimization := some optimization
                  scheduling := some sched }

/-- The lazy-resolution variant described by the specification's design
note (spec 9, and the "observably equivalent to lazy resolution"
sentence of 4.1): identical to `level_2_pass_manager` except that the
routing stage is resolved inside the mapping branch, where it is used,
instead of unconditionally before it. -/
def level_2_pass_manager_lazy (reg : Registry) (pass_manager_config : PassManagerConfig) :
    Except PresetError StagedPassManager :=
  let basis_gates := pass_manager_config.basis_gates
  let coupling_map := pass_manager_config.coupling_map
  let initial_layout := pass_manager_config.initial_layout
  let init_method := pass_manager_config.init_method
  let layout_method := pyOrDefault pass_manager_config.layout_method "default"
  let routing_method := pyOrDefault pass_manager_config.routing_method "sabre"
  let translation_method := pyOrDefault pass_manager_config.translation_method "translator"
  let optimization_method := pyOrDefault pass_manager_config.optimization_method "default"
  let scheduling_method := pyOrDefault pass_manager_config.scheduling_method "default"
  let approximation_degree := pass_manager_config.approximation_degree
  let unitary_synthesis_method := pass_manager_config.unitary_synthesis_method
  let unitary_synthesis_plugin_config := pass_manager_config.unitary_synthesis_plugin_config
  let target := pass_manager_config.target
  let hls_config := pass_manager_config.hls_config
  let mapped : Except PresetError
      (Option PassManager × Option PassManager × Option PassManager) :=
    if coupling_map.isSome || initial_layout.isSome then
      match get_passmanager_stage reg "routing" routing_method pass_manager_config 2 with
      | Except.error e => Except.error e
      | Except.ok routing_pm =>
        match get_passmanager_stage reg "layout" layout_method pass_manager_config 2 with
        | Except.error e => Except.error e
        | Except.ok layout =>
          Except.ok
            (some (generate_unroll_3q target basis_gates approximation_degree
                unitary_synthesis_method unitary_synthesis_plugin_config hls_config),
              some layout, some routing_pm)
    else
      Except.ok (none, none, none)
  match mapped with
  | Except.error e => Except.error e
  | Except.ok (unroll_3q, layout, routing) =>
    match get_passmanager_stage reg "translation" translation_method
        pass_manager_config 2 with
    | Except.error e => Except.error e
    | Except.ok translation =>
      let pre_optimization :=
        if (coupling_map.any fun cm => !cm.is_symmetric) ||
            (target.any fun t =>
              !(t.get_non_global_operation_names true).isEmpty) then
          generate_pre_op_passmanager target coupling_map true
        else
          generate_pre_op_passmanager none none true
      match get_passmanager_stage reg "optimization" optimization_method
          pass_manager_config 2 with
      | Except.error e => Except.error e
      | Except.ok optimization =>
        match get_passmanager_stage reg "scheduling" scheduling_method
            pass_manager_config 2 with
        | Except.error e => Except.error e
        | Except.ok sched =>
          let init := generate_control_flow_options_check layout_method
            routing_method translation_method optimization_method
            scheduling_method basis_gates target
          let initResolved : Except PresetError PassManager :=
            match init_method with
            | some im =>
              match get_passmanager_stage reg "init" im pass_manager_config 2 with
              | Except.error e => Except.error e
              | Except.ok s => Except.ok (init ++ s)
            | none =>
              match unroll_3q with
              | some u => Except.ok (init ++ u)
              | none => Except.ok init
          match initResolved with
          | Except.error e => Except.error e
          | Except.ok init =>
            Except.ok
              { init := some init
                layout := layout
                routing := routing
                translation := some translation
                pre_optimization := some pre_optimization
                optimization := some optimization
                scheduling := some sched }

/-- The staged pipeline that a successful assembly yields, as a total
function of the configuration (registry lookups only gate success, they
do not change the value built). -/
def expectedPipeline (cfg : PassManagerConfig) : StagedPassManager :=
  let layout_method := pyOrDefault cfg.layout_method "default"
  let routing_method := pyOrDefault cfg.routing_method "sabre"
  let translation_method := pyOrDefault cfg.translation_method "translator"
  let optimization_method := pyOrDefault cfg.optimization_method "default"
  let scheduling_method := pyOrDefault cfg.scheduling_method "default"
  let unroll_3q := generate_unroll_3q cfg.target cfg.basis_gates
    cfg.approximation_degree cfg.unitary_synthesis_method
    cfg.unitary_synthesis_plugin_config cfg.hls_config
  let validation := generate_control_flow_options_check layout_method routing_method
    translation_method optimization_method scheduling_method cfg.basis_gates cfg.target
  { init := some
      (match cfg.init_method with
        | some im => validation ++ [Segment.plugin "init" im cfg 2]
        | none =>
          if mappingNeeded cfg then validation ++ unroll_3q else validation)
    layout :=
      if mappingNeeded cfg then some [Segment.plugin "layout" layout_method cfg 2]
      else none
    routing :=
      if mappingNeeded cfg then some [Segment.plugin "routing" routing_method cfg 2]
      else none
    translation := some [Segment.plugin "translation" translation_method cfg 2]
    pre_optimization := some
      (if asymmetricCond cfg then
        generate_pre_op_passmanager cfg.target cfg.coupling_map true
      else generate_pre_op_passmanager none none true)
    optimization := some [Segment.plugin "optimization" optimization_method cfg 2]
    scheduling := some [Segment.plugin "scheduling" scheduling_method cfg 2] }

/-- All the registry lookups that `level_2_pass_manager` performs on a
given configuration succeed: routing always, layout only when mapping
is needed, translation, optimization and scheduling always, and init
only when an explicit init method was supplied. -/
def requiredLookupsOk (reg : Registry) (cfg : PassManagerConfig) : Bool :=
  decide (("routing", pyOrDefault cfg.routing_method "sabre") ∈ reg) &&
  (!(mappingNeeded cfg) ||
    decide (("layout", pyOrDefault cfg.layout_method "default") ∈ reg)) &&
  decide (("translation", pyOrDefault cfg.translation_method "translator") ∈ reg) &&
  decide (("optimization", pyOrDefault cfg.optimization_method "default") ∈ reg) &&
  decide (("scheduling", pyOrDefault cfg.scheduling_method "default") ∈ reg) &&
  (match cfg.init_method with
    | none => true
    | some im => decide (("init", im) ∈ reg))

set_option maxRecDepth 8192 in
set_option maxHeartbeats 2000000 in
/-- Assembly succeeds exactly when every registry lookup it performs is
registered, and then the resulting pipeline is `expectedPipeline`. -/
theorem level_2_ok_iff (reg : Registry) (cfg : PassManagerConfig)
    (p : StagedPassManager) :
    level_2_pass_manager reg cfg = Except.ok p ↔
      requiredLookupsOk reg cfg = true ∧ expectedPipeline cfg = p := by
  unfold level_2_pass_manager requiredLookupsOk expectedPipeline
  by_cases h1 : ("routing", pyOrDefault cfg.routing_method "sabre") ∈ reg <;>
    by_cases h2 : ("layout", pyOrDefault cfg.layout_method "default") ∈ reg <;>
    by_cases h3 : ("translation", pyOrDefault cfg.translation_method "translator") ∈ reg <;>
    by_cases h4 : ("optimization", pyOrDefault cfg.optimization_method "default") ∈ reg <;>
    by_cases h5 : ("scheduling", pyOrDefault cfg.scheduling_method "default") ∈ reg <;>
    by_cases hm : (cfg.coupling_map.isSome || cfg.initial_layout.isSome) = true <;>
    by_cases h6 : (match cfg.init_method with
      | none => true
      | some im => decide (("init", im) ∈ reg)) = true <;>
    cases hi : cfg.init_method <;>
    simp_all [get_passmanager_stage, mappingNeeded, asymmetricCond]
  all_goals
    intro hcm hil
    rcases hm with h | h
    · simp [hcm] at h
    · simp [hil] at h

set_option maxRecDepth 8192 in
set_option maxHeartbeats 2000000 in
/-- A failed assembly's `ResolutionError` always names a
(stage-kind, method-name) pair that is not registered: the error is the
one raised by the failing registry lookup itself. -/
theorem level_2_error_not_registered (reg : Registry) (cfg : PassManagerConfig)
    (k m : String)
    (h : level_2_pass_manager reg cfg = Except.error (PresetError.resolutionError k m)) :
    (k, m) ∉ reg := by
  unfold level_2_pass_manager at h
  by_cases h1 : ("routing", pyOrDefault cfg.routing_method "sabre") ∈ reg <;>
    by_cases h2 : ("layout", pyOrDefault cfg.layout_method "default") ∈ reg <;>
    by_cases h3 : ("translation", pyOrDefault cfg.translation_method "translator") ∈ reg <;>
    by_cases h4 : ("optimization", pyOrDefault cfg.optimization_method "default") ∈ reg <;>
    by_cases h5 : ("scheduling", pyOrDefault cfg.scheduling_method "default") ∈ reg <;>
    by_cases hm : (cfg.coupling_map.isSome || cfg.initial_layout.isSome) = true <;>
    by_cases h6 : (match cfg.init_method with
      | none => true
      | some im => decide (("init", im) ∈ reg)) = true <;>
    cases hi : cfg.init_method <;>
    simp_all [get_passmanager_stage, mappingNeeded, asymmetricCond]

/-- A registry containing every method name the fixtures below use. -/
def regFull : Registry :=
  [("routing", "sabre"), ("layout", "default"), ("translation", "translator"),
    ("optimization", "default"), ("scheduling", "default"), ("init", "custom")]

/-- The all-defaults configuration: no connectivity graph, no user
placement, every method selection absent. -/
def cfgEmpty : PassManagerConfig :=
  ⟨none, none, none, none, none, none, none, none, none, none, "default", none,
    none, none⟩

/-- An asymmetric (directed) connectivity graph. -/
def cmAsym : CouplingMap := ⟨1, false⟩

/-- A target descriptor that reports no operation as unavailable in any
direction (its strict-direction report is empty). -/
def targetPlain : Target := ⟨0, [], []⟩

/-- A configuration with a (directed, asymmetric) connectivity graph
present and everything else defaulted. -/
def cfgCm : PassManagerConfig :=
  { cfgEmpty with coupling_map := some cmAsym }

/-- A configuration with a connectivity graph present and an explicit
init method selected. -/
def cfgInit : PassManagerConfig :=
  { cfgEmpty with coupling_map := some cmAsym, init_method := some "custom" }

/-- A configuration with a target that reports no strictly-directional
operation together with an asymmetric connectivity graph. -/
def cfgTargetAsym : PassManagerConfig :=
  { cfgEmpty with target := some targetPlain, coupling_map := some cmAsym }

/-- A configuration whose translation method selection is present but
is the empty string (falsy in Python). -/
def cfgEmptyStringMethod : PassManagerConfig :=
  { cfgEmpty with translation_method := some "" }

/-- A registry with every stage registered except routing. -/
def regNoRouting : Registry :=
  [("layout", "default"), ("translation", "translator"),
    ("optimization", "default"), ("scheduling", "default")]

/-- A successful assembly yields exactly `expectedPipeline`. -/
theorem level_2_ok_expected (reg : Registry) (cfg : PassManagerConfig)
    (p : StagedPassManager) (h : level_2_pass_manager reg cfg = Except.ok p) :
    expectedPipeline cfg = p :=
  ((level_2_ok_iff reg cfg p).mp h).2

/-- C1: for every configuration in which the connectivity graph is
absent and no user-supplied placement is present, a returned
`StagedPassManager` has both its layout and routing slots equal to the
explicit absence marker `none`. -/
theorem claim1_no_mapping_layout_routing_absent (reg : Registry)
    (cfg : PassManagerConfig) (p : StagedPassManager)
    (hcm : cfg.coupling_map = none) (hil : cfg.initial_layout = none)
    (h : level_2_pass_manager reg cfg = Except.ok p) :
    p.layout = none ∧ p.routing = none := by
  have hp := level_2_ok_expected reg cfg p h
  subst hp
  simp [expectedPipeline, mappingNeeded, hcm, hil]

/-- Witness for C1 at the all-defaults configuration. -/
theorem claim1_witness :
    cfgEmpty.coupling_map = none ∧ cfgEmpty.initial_layout = none ∧
      ((expectedPipeline cfgEmpty).layout = none ∧
        (expectedPipeline cfgEmpty).routing = none) :=
  ⟨rfl, rfl,
    claim1_no_mapping_layout_routing_absent regFull cfgEmpty
      (expectedPipeline cfgEmpty) rfl rfl (by decide)⟩

/-- C2: the pre-optimization slot is the direction-fixing build, bound
to the configuration's target and connectivity graph, exactly when the
asymmetry condition holds ((connectivity graph present and not
symmetric) or (target present with a non-empty strict-direction
report)); otherwise it is the build with only zero-state reset removal
enabled and no target/connectivity binding.  (The source passes
`remove_reset_in_zero=True` in both branches.) -/
theorem claim2_pre_optimization_asymmetric (reg : Registry)
    (cfg : PassManagerConfig) (p : StagedPassManager)
    (h : level_2_pass_manager reg cfg = Except.ok p) :
    ∃ pre, p.pre_optimization = some pre ∧
      (asymmetricCond cfg = true →
        pre = generate_pre_op_passmanager cfg.target cfg.coupling_map true ∧
          fixesDirection pre = true) ∧
      (asymmetricCond cfg = false →
        pre = generate_pre_op_passmanager none none true ∧
          fixesDirection pre = false) := by
  have hp := level_2_ok_expected reg cfg p h
  subst hp
  cases ha : asymmetricCond cfg with
  | false =>
    refine ⟨generate_pre_op_passmanager none none true,
      by simp [expectedPipeline, ha], ?_, ?_⟩
    · intro hcontra
      simp at hcontra
    · intro _
      exact ⟨rfl, by simp [fixesDirection, generate_pre_op_passmanager]⟩
  | true =>
    refine ⟨generate_pre_op_passmanager cfg.target cfg.coupling_map true,
      by simp [expectedPipeline, ha], ?_, ?_⟩
    · intro _
      refine ⟨rfl, ?_⟩
      simp only [asymmetricCond, Bool.or_eq_true] at ha
      simp only [fixesDirection, generate_pre_op_passmanager, List.any_cons,
        List.any_nil, Bool.or_false]
      rcases ha with hc | ht
      · have hcm : cfg.coupling_map.isSome = true := by
          cases hcm2 : cfg.coupling_map with
          | none => rw [hcm2] at hc; simp at hc
          | some cm => rfl
        simp [hcm]
      · have htg : cfg.target.isSome = true := by
          cases htg2 : cfg.target with
          | none => rw [htg2] at ht; simp at ht
          | some t => rfl
        simp [htg]
    · intro hcontra
      simp at hcontra

/-- Witness for C2 at a symmetric-free configuration. -/
theorem claim2_witness :
    ∃ pre, (expectedPipeline cfgEmpty).pre_optimization = some pre ∧
      (asymmetricCond cfgEmpty = true →
        pre = generate_pre_op_passmanager cfgEmpty.target cfgEmpty.coupling_map true ∧
          fixesDirection pre = true) ∧
      (asymmetricCond cfgEmpty = false →
        pre = generate_pre_op_passmanager none none true ∧
          fixesDirection pre = false) :=
  claim2_pre_optimization_asymmetric regFull cfgEmpty (expectedPipeline cfgEmpty)
    (by decide)

/-- C3: for every configuration with a connectivity graph present, a
returned pipeline has present layout and routing slots, and if no
init-method name was supplied the init slot is the control-flow
validation stage followed by the wide-operation-reduction stage built
from the same target, native gate set, tolerance and synthesis
parameters. -/
theorem claim3_coupling_map_slots (reg : Registry) (cfg : PassManagerConfig)
    (p : StagedPassManager) (hcm : cfg.coupling_map.isSome = true)
    (h : level_2_pass_manager reg cfg = Except.ok p) :
    p.layout.isSome = true ∧ p.routing.isSome = true ∧
      (cfg.init_method = none →
        p.init = some (generate_control_flow_options_check
            (pyOrDefault cfg.layout_method "default")
            (pyOrDefault cfg.routing_method "sabre")
            (pyOrDefault cfg.translation_method "translator")
            (pyOrDefault cfg.optimization_method "default")
            (pyOrDefault cfg.scheduling_method "default")
            cfg.basis_gates cfg.target ++
          generate_unroll_3q cfg.target cfg.basis_gates cfg.approximation_degree
            cfg.unitary_synthesis_method cfg.unitary_synthesis_plugin_config
            cfg.hls_config)) := by
  have hp := level_2_ok_expected reg cfg p h
  subst hp
  exact ⟨by simp [expectedPipeline, mappingNeeded, hcm],
    by simp [expectedPipeline, mappingNeeded, hcm],
    fun hi => by simp [expectedPipeline, mappingNeeded, hcm, hi]⟩

/-- Witness for C3 at a configuration with an asymmetric connectivity
graph and no init method. -/
theorem claim3_witness :
    cfgCm.coupling_map.isSome = true ∧
      ((expectedPipeline cfgCm).layout.isSome = true ∧
        (expectedPipeline cfgCm).routing.isSome = true ∧
        (cfgCm.init_method = none →
          (expectedPipeline cfgCm).init = some (generate_control_flow_options_check
              (pyOrDefault cfgCm.layout_method "default")
              (pyOrDefault cfgCm.routing_method "sabre")
              (pyOrDefault cfgCm.translation_method "translator")
              (pyOrDefault cfgCm.optimization_method "default")
              (pyOrDefault cfgCm.scheduling_method "default")
              cfgCm.basis_gates cfgCm.target ++
            generate_unroll_3q cfgCm.target cfgCm.basis_gates
              cfgCm.approximation_degree cfgCm.unitary_synthesis_method
              cfgCm.unitary_synthesis_plugin_config cfgCm.hls_config))) :=
  ⟨rfl, claim3_coupling_map_slots regFull cfgCm (expectedPipeline cfgCm) rfl
    (by decide)⟩

/-- C4: for every configuration with an explicit init-method name, the
init slot is the control-flow validation stage followed by the
registry-resolved init stage for exactly that name — regardless of
connectivity graph or user placement — and the wide-operation-reduction
stage is never part of init. -/
theorem claim4_explicit_init_method (reg : Registry) (cfg : PassManagerConfig)
    (p : StagedPassManager) (im : String) (hi : cfg.init_method = some im)
    (h : level_2_pass_manager reg cfg = Except.ok p) :
    p.init = some (generate_control_flow_options_check
        (pyOrDefault cfg.layout_method "default")
        (pyOrDefault cfg.routing_method "sabre")
        (pyOrDefault cfg.translation_method "translator")
        (pyOrDefault cfg.optimization_method "default")
        (pyOrDefault cfg.scheduling_method "default")
        cfg.basis_gates cfg.target ++
      [Segment.plugin "init" im cfg 2]) ∧
      (∀ pm, p.init = some pm → hasUnroll3q pm = false) := by
  have hp := level_2_ok_expected reg cfg p h
  subst hp
  constructor
  · simp [expectedPipeline, hi]
  · intro pm hpm
    simp only [expectedPipeline, hi] at hpm
    rw [Option.some_inj] at hpm
    rw [← hpm]
    simp [hasUnroll3q, generate_control_flow_options_check]

/-- Witness for C4 at a configuration with a connectivity graph present
and `init_method="custom"`. -/
theorem claim4_witness :
    cfgInit.init_method = some "custom" ∧
      ((expectedPipeline cfgInit).init = some (generate_control_flow_options_check
          (pyOrDefault cfgInit.layout_method "default")
          (pyOrDefault cfgInit.routing_method "sabre")
          (pyOrDefault cfgInit.translation_method "translator")
          (pyOrDefault cfgInit.optimization_method "default")
          (pyOrDefault cfgInit.scheduling_method "default")
          cfgInit.basis_gates cfgInit.target ++
        [Segment.plugin "init" "custom" cfgInit 2]) ∧
        (∀ pm, (expectedPipeline cfgInit).init = some pm →
          hasUnroll3q pm = false)) :=
  ⟨rfl, claim4_explicit_init_method regFull cfgInit (expectedPipeline cfgInit)
    "custom" rfl (by decide)⟩

/-- Counterexample to C5 as stated: at a configuration whose target is
present but reports no strictly-directional operation, an asymmetric
connectivity graph still flips the decision to the direction-fixing
build bound to target and graph — so the connectivity graph's
asymmetry does influence the decision even though the target is
present, contradicting "the connectivity graph is consulted only when
the target is absent". -/
theorem claim5_counterexample :
    cfgTargetAsym.target = some targetPlain ∧
      targetPlain.get_non_global_operation_names true = [] ∧
      level_2_pass_manager regFull cfgTargetAsym =
        Except.ok (expectedPipeline cfgTargetAsym) ∧
      (expectedPipeline cfgTargetAsym).pre_optimization =
        some (generate_pre_op_passmanager (some targetPlain) (some cmAsym) true) ∧
      (expectedPipeline cfgTargetAsym).pre_optimization ≠
        some (generate_pre_op_passmanager none none true) ∧
      fixesDirection
        (generate_pre_op_passmanager (some targetPlain) (some cmAsym) true) = true :=
  ⟨rfl, rfl, by decide, by decide, by decide, by decide⟩

/-- C5 amended: the direction-asymmetry decision is the disjunction of
the connectivity-graph test and the target test; when the target is
present, the connectivity graph's asymmetry still influences the
decision — direction fixing is enabled iff (graph present and not
symmetric) or the target's strict-direction report is non-empty. -/
theorem claim5_amended_disjunction (reg : Registry) (cfg : PassManagerConfig)
    (p : StagedPassManager) (t : Target) (ht : cfg.target = some t)
    (h : level_2_pass_manager reg cfg = Except.ok p) :
    ∃ pre, p.pre_optimization = some pre ∧
      fixesDirection pre =
        ((cfg.coupling_map.any fun cm => !cm.is_symmetric) ||
          !(t.get_non_global_operation_names true).isEmpty) := by
  have hp := level_2_ok_expected reg cfg p h
  subst hp
  have hrw : ((cfg.coupling_map.any fun cm => !cm.is_symmetric) ||
      !(t.get_non_global_operation_names true).isEmpty) = asymmetricCond cfg := by
    simp [asymmetricCond, ht]
  rw [hrw]
  cases ha : asymmetricCond cfg with
  | false =>
    exact ⟨generate_pre_op_passmanager none none true,
      by simp [expectedPipeline, ha],
      by simp [fixesDirection, generate_pre_op_passmanager]⟩
  | true =>
    exact ⟨generate_pre_op_passmanager cfg.target cfg.coupling_map true,
      by simp [expectedPipeline, ha],
      by simp [fixesDirection, generate_pre_op_passmanager, ht]⟩

/-- Witness for the amended C5 at the counterexample configuration. -/
theorem claim5_amended_witness :
    cfgTargetAsym.target = some targetPlain ∧
      ∃ pre, (expectedPipeline cfgTargetAsym).pre_optimization = some pre ∧
        fixesDirection pre =
          ((cfgTargetAsym.coupling_map.any fun cm => !cm.is_symmetric) ||
            !(targetPlain.get_non_global_operation_names true).isEmpty) :=
  ⟨rfl, claim5_amended_disjunction regFull cfgTargetAsym
    (expectedPipeline cfgTargetAsym) targetPlain rfl (by decide)⟩

/-- C6: if any registry lookup that `level_2_pass_manager` performs on
a configuration is for an unregistered pair, the whole call fails with
that lookup's `ResolutionError` (naming an unregistered pair) and no
pipeline — partial or otherwise — is returned. -/
theorem claim6_resolution_error_aborts (reg : Registry) (cfg : PassManagerConfig)
    (h : requiredLookupsOk reg cfg = false) :
    ∃ k m, ((k, m) ∉ reg) ∧
      level_2_pass_manager reg cfg = Except.error (PresetError.resolutionError k m) ∧
      ∀ q, level_2_pass_manager reg cfg ≠ Except.ok q := by
  cases hr : level_2_pass_manager reg cfg with
  | ok q =>
    exfalso
    obtain ⟨hok, -⟩ := (level_2_ok_iff reg cfg q).mp hr
    rw [h] at hok
    cases hok
  | error e =>
    cases e with
    | resolutionError k m =>
      refine ⟨k, m, level_2_error_not_registered reg cfg k m hr, rfl, ?_⟩
      intro q hq
      exact Except.noConfusion hq

/-- Witness for C6 at the empty registry. -/
theorem claim6_witness :
    requiredLookupsOk [] cfgEmpty = false ∧
      ∃ k m, ((k, m) ∉ ([] : Registry)) ∧
        level_2_pass_manager [] cfgEmpty =
          Except.error (PresetError.resolutionError k m) ∧
        ∀ q, level_2_pass_manager [] cfgEmpty ≠ Except.ok q :=
  ⟨by decide, claim6_resolution_error_aborts [] cfgEmpty (by decide)⟩

/-- Counterexample to C7 as stated: a present but empty-string
translation selection is not looked up as the supplied name — Python's
`or` defaulting replaces it with "translator". -/
theorem claim7_counterexample :
    cfgEmptyStringMethod.translation_method = some "" ∧
      level_2_pass_manager regFull cfgEmptyStringMethod =
        Except.ok (expectedPipeline cfgEmptyStringMethod) ∧
      (expectedPipeline cfgEmptyStringMethod).translation =
        some [Segment.plugin "translation" "translator" cfgEmptyStringMethod 2] ∧
      (expectedPipeline cfgEmptyStringMethod).translation ≠
        some [Segment.plugin "translation" "" cfgEmptyStringMethod 2] :=
  ⟨rfl, by decide, by decide, by decide⟩

/-- C7 amended: each stage lookup uses `pyOrDefault`, i.e. the
documented default name ("default" for layout/optimization/scheduling,
"sabre" for routing, "translator" for translation) when the selection
is absent — or present but empty, since Python `or` also replaces the
falsy empty string — and exactly the supplied name whenever a non-empty
selection is present. -/
theorem claim7_amended_method_names (reg : Registry) (cfg : PassManagerConfig)
    (p : StagedPassManager) (h : level_2_pass_manager reg cfg = Except.ok p) :
    p.translation = some [Segment.plugin "translation"
        (pyOrDefault cfg.translation_method "translator") cfg 2] ∧
      p.optimization = some [Segment.plugin "optimization"
        (pyOrDefault cfg.optimization_method "default") cfg 2] ∧
      p.scheduling = some [Segment.plugin "scheduling"
        (pyOrDefault cfg.scheduling_method "default") cfg 2] ∧
      (mappingNeeded cfg = true →
        p.layout = some [Segment.plugin "layout"
            (pyOrDefault cfg.layout_method "default") cfg 2] ∧
          p.routing = some [Segment.plugin "routing"
            (pyOrDefault cfg.routing_method "sabre") cfg 2]) := by
  have hp := level_2_ok_expected reg cfg p h
  subst hp
  exact ⟨by simp [expectedPipeline], by simp [expectedPipeline],
    by simp [expectedPipeline],
    fun hmn => ⟨by simp [expectedPipeline, hmn], by simp [expectedPipeline, hmn]⟩⟩

/-- Witness for the amended C7 at a configuration with a connectivity
graph and all selections defaulted. -/
theorem claim7_amended_witness :
    (expectedPipeline cfgCm).translation = some [Segment.plugin "translation"
        (pyOrDefault cfgCm.translation_method "translator") cfgCm 2] ∧
      (expectedPipeline cfgCm).optimization = some [Segment.plugin "optimization"
        (pyOrDefault cfgCm.optimization_method "default") cfgCm 2] ∧
      (expectedPipeline cfgCm).scheduling = some [Segment.plugin "scheduling"
        (pyOrDefault cfgCm.scheduling_method "default") cfgCm 2] ∧
      (mappingNeeded cfgCm = true →
        (expectedPipeline cfgCm).layout = some [Segment.plugin "layout"
            (pyOrDefault cfgCm.layout_method "default") cfgCm 2] ∧
          (expectedPipeline cfgCm).routing = some [Segment.plugin "routing"
            (pyOrDefault cfgCm.routing_method "sabre") cfgCm 2]) :=
  claim7_amended_method_names regFull cfgCm (expectedPipeline cfgCm) (by decide)

/-- Counterexample to C8 as stated: with the routing method
unregistered and no mapping needed, the program as written fails with
the routing `ResolutionError` while the lazy variant — which never
performs that lookup — succeeds, so the two are not observably
equivalent for every configuration even though resolution is pure. -/
theorem claim8_counterexample :
    level_2_pass_manager regNoRouting cfgEmpty ≠
        level_2_pass_manager_lazy regNoRouting cfgEmpty ∧
      level_2_pass_manager regNoRouting cfgEmpty =
        Except.error (PresetError.resolutionError "routing" "sabre") ∧
      level_2_pass_manager_lazy regNoRouting cfgEmpty =
        Except.ok (expectedPipeline cfgEmpty) :=
  ⟨by decide, by decide, by decide⟩

set_option maxRecDepth 8192 in
set_option maxHeartbeats 2000000 in
/-- C8 amended: eager and lazy routing resolution are observably
equivalent — same pipeline or same error — for every configuration in
which the routing lookup succeeds (and also whenever mapping is
needed); they differ only when the routing method is unregistered and
its eagerly-raised `ResolutionError` would otherwise never surface. -/
theorem claim8_amended_eager_equals_lazy (reg : Registry)
    (cfg : PassManagerConfig)
    (h : ("routing", pyOrDefault cfg.routing_method "sabre") ∈ reg ∨
      mappingNeeded cfg = true) :
    level_2_pass_manager reg cfg = level_2_pass_manager_lazy reg cfg := by
  unfold level_2_pass_manager level_2_pass_manager_lazy
  rcases h with h | h
  · by_cases h2 : ("layout", pyOrDefault cfg.layout_method "default") ∈ reg <;>
      by_cases hm : (cfg.coupling_map.isSome || cfg.initial_layout.isSome) = true <;>
      simp_all [get_passmanager_stage, mappingNeeded]
  · by_cases h1 : ("routing", pyOrDefault cfg.routing_method "sabre") ∈ reg <;>
      by_cases h2 : ("layout", pyOrDefault cfg.layout_method "default") ∈ reg <;>
      simp_all [get_passmanager_stage, mappingNeeded]

/-- Witness for the amended C8 with routing registered. -/
theorem claim8_amended_witness :
    (("routing", pyOrDefault cfgEmpty.routing_method "sabre") ∈ regFull ∨
        mappingNeeded cfgEmpty = true) ∧
      level_2_pass_manager regFull cfgEmpty =
        level_2_pass_manager_lazy regFull cfgEmpty :=
  ⟨Or.inl (by decide),
    claim8_amended_eager_equals_lazy regFull cfgEmpty (Or.inl (by decide))⟩

/-- C9: assembly is deterministic — as a pure function of the
configuration and the (read-only) registry, two runs over the same
inputs produce the same pipeline or the same error; the embedding makes
the single pass over the decision tree explicit, with no retries and no
other inputs. -/
theorem claim9_deterministic (reg : Registry) (cfg : PassManagerConfig)
    (r1 r2 : Except PresetError StagedPassManager)
    (h1 : level_2_pass_manager reg cfg = r1)
    (h2 : level_2_pass_manager reg cfg = r2) : r1 = r2 := by
  rw [← h1, ← h2]

/-- Witness for C9 at the full registry and defaults configuration. -/
theorem claim9_witness :
    level_2_pass_manager regFull cfgEmpty = Except.ok (expectedPipeline cfgEmpty) ∧
      (Except.ok (expectedPipeline cfgEmpty) :
          Except PresetError StagedPassManager) =
        Except.ok (expectedPipeline cfgEmpty) :=
  ⟨by decide,
    claim9_deterministic regFull cfgEmpty _ _ (by decide) (by decide)⟩

/-- C10: every successfully returned pipeline has its init,
translation, pre-optimization, optimization and scheduling slots
present; only layout and routing can ever be the absence marker. -/
theorem claim10_core_slots_present (reg : Registry) (cfg : PassManagerConfig)
    (p : StagedPassManager) (h : level_2_pass_manager reg cfg = Except.ok p) :
    p.init.isSome = true ∧ p.translation.isSome = true ∧
      p.pre_optimization.isSome = true ∧ p.optimization.isSome = true ∧
      p.scheduling.isSome = true := by
  have hp := level_2_ok_expected reg cfg p h
  subst hp
  simp [expectedPipeline]

/-- Witness for C10 at the full registry and defaults configuration. -/
theorem claim10_witness :
    (expectedPipeline cfgEmpty).init.isSome = true ∧
      (expectedPipeline cfgEmpty).translation.isSome = true ∧
      (expectedPipeline cfgEmpty).pre_optimization.isSome = true ∧
      (expectedPipeline cfgEmpty).optimization.isSome = true ∧
      (expectedPipeline cfgEmpty).scheduling.isSome = true :=
  claim10_core_slots_present regFull cfgEmpty (expectedPipeline cfgEmpty)
    (by decide)

end Level2
